import Mathlib

/-!
# Verification of the muonic core pipeline

A shallow embedding of the muonic data-acquisition core
(`muonic/lib/analyzers.py`, `muonic/lib/consumers.py`, `muonic/lib/app.py`)
and proofs about its analyzer lifecycle state machine, rate/pulse
computations, consumer fan-out and the dispatcher chain.

Conventions of the embedding:
* Python `None` becomes `Option.none`; run ids and transport (DAQ) handles
  are abstracted to `Nat` identifiers, since the code only stores and
  compares them.
* Consumer callbacks are side effects; we model them as an event trace:
  each lifecycle operation returns the updated state together with the
  list of consumer events it emits, in emission order.
* Python floats become `ℚ` (the numeric expressions involved are exact
  field arithmetic).
-/

set_option autoImplicit false

namespace Muonic

/-- `DataTypes` enumeration from `analyzers.py` (RAW/RATE/PULSE/DECAY/VELOCITY). -/
inductive DataTypes where
  | RAW
  | RATE
  | PULSE
  | DECAY
  | VELOCITY
  deriving DecidableEq, Repr

/-- One observable consumer callback, tagged with the id of the consumer that
receives it.  `evStart` carries the run id passed to `consumer.start`,
`evStop` the `current_run_id` passed to `consumer.stop` (an `Option`, since
the Python field may be `None`), `evPush` the data type of the published
datum, `evFinish` no argument beyond the consumer id. -/
inductive CEvent where
  | evStart (c : Nat) (runId : Nat)
  | evStop (c : Nat) (runId : Option Nat)
  | evPush (c : Nat) (dt : DataTypes)
  | evFinish (c : Nat)
  deriving DecidableEq, Repr

/-- State of `BaseAnalyzer` (fields set in `BaseAnalyzer.__init__`):
`_active`, `_disabled`, `_last_run_id`, `_last_daq`, `current_run_id`,
`daq`, and the registered consumer list (abstracted to consumer ids).
`lastRunId = none` models Python's `_last_run_id is None`
("no pending-resume arguments"); `lastDaq` is the captured `daq` value,
itself possibly `none`. -/
structure BaseAnalyzer where
  consumers : List Nat
  active : Bool
  disabled : Bool
  lastRunId : Option Nat
  lastDaq : Option Nat
  currentRunId : Option Nat
  daq : Option Nat
  deriving DecidableEq, Repr

namespace BaseAnalyzer

/-- `BaseAnalyzer.__init__(consumers)`: inactive, not disabled, no run,
no transport, no pending-resume arguments. -/
def init (consumers : List Nat) : BaseAnalyzer :=
  { consumers := consumers
    active := false
    disabled := false
    lastRunId := none
    lastDaq := none
    currentRunId := none
    daq := none }

/-- `BaseAnalyzer.start(run_id, daq)`.  If not disabled: bind `daq` and
`current_run_id`; if additionally not yet active, become active and notify
every consumer's `start`.  If disabled: only record the pending-resume
arguments. -/
def start (a : BaseAnalyzer) (runId : Nat) (daq : Option Nat) :
    BaseAnalyzer × List CEvent :=
  if !a.disabled then
    let a1 := { a with daq := daq, currentRunId := some runId }
    if !a1.active then
      ({ a1 with active := true }, a.consumers.map (fun c => CEvent.evStart c runId))
    else
      (a1, [])
  else
    ({ a with lastRunId := some runId, lastDaq := daq }, [])

/-- `BaseAnalyzer.stop()`.  Always clears the pending-resume arguments;
no-op if inactive; if active and not disabled, notify every consumer's
`stop(current_run_id, ...)`, clear `current_run_id` and deactivate.
(As in the source, `daq` is *not* cleared by `stop`.) -/
def stop (a : BaseAnalyzer) : BaseAnalyzer × List CEvent :=
  let a1 := { a with lastRunId := none, lastDaq := none }
  if !a1.active then
    (a1, [])
  else if !a1.disabled then
    ({ a1 with currentRunId := none, active := false },
     a.consumers.map (fun c => CEvent.evStop c a.currentRunId))
  else
    (a1, [])

/-- The `BaseAnalyzer.disabled` property setter.  Setting `true` on an
active analyzer captures `(current_run_id, daq)` as pending-resume
arguments, deactivates, notifies every consumer's `stop`, and clears
`current_run_id`/`daq`; on an inactive analyzer it only marks disabled.
Setting `false` clears the mark and, if pending-resume arguments exist,
calls `start` with them. -/
def setDisabled (a : BaseAnalyzer) (val : Bool) : BaseAnalyzer × List CEvent :=
  if val then
    if a.active then
      ({ a with lastRunId := a.currentRunId
                lastDaq := a.daq
                active := false
                currentRunId := none
                daq := none
                disabled := true },
       a.consumers.map (fun c => CEvent.evStop c a.currentRunId))
    else
      ({ a with disabled := true }, [])
  else
    let a1 := { a with disabled := false }
    match a1.lastRunId with
    | some r => a1.start r a1.lastDaq
    | none => (a1, [])

/-- `BaseAnalyzer.publish(data, data_type)`: no-op if not active, else
pushes to every consumer.  Only the data type of the payload is tracked. -/
def publish (a : BaseAnalyzer) (dt : DataTypes) : List CEvent :=
  if !a.active then []
  else a.consumers.map (fun c => CEvent.evPush c dt)

/-- `BaseAnalyzer.finish()`: notifies every consumer's `finish`,
regardless of state. -/
def finish (a : BaseAnalyzer) : List CEvent :=
  a.consumers.map (fun c => CEvent.evFinish c)

/-- `BaseAnalyzer.daq_put(msg)`: fails (returns `false`, sends nothing)
when no transport is bound; otherwise forwards the command.  The returned
list is the sequence of commands sent to the transport. -/
def daq_put (a : BaseAnalyzer) (msg : String) : Bool × List String :=
  match a.daq with
  | none => (false, [])
  | some _ => (true, [msg])

end BaseAnalyzer

/-! ## String helpers

The Python code uses `str.split()` (split on whitespace runs, dropping
empties), `str.split(" ")`/`str.split("=")` (split on a single character,
keeping empties) and `int(s, 16)`.  We re-implement these structurally on
`List Char` so that every definition evaluates by kernel reduction.
`parseHex` returns `none` where Python's `int(s, 16)` would raise. -/

/-- Helper for `splitWS`: accumulates the current word (reversed). -/
def splitWSAux : List Char → List Char → List (List Char)
  | [], acc => if acc = [] then [] else [acc.reverse]
  | c :: cs, acc =>
    if c.isWhitespace then
      if acc = [] then splitWSAux cs []
      else acc.reverse :: splitWSAux cs []
    else splitWSAux cs (c :: acc)

/-- Python `str.split()`: split on whitespace runs, dropping empty pieces. -/
def splitWS (s : List Char) : List (List Char) :=
  splitWSAux s []

/-- Python `str.split(sep)` for a one-character separator: split on every
occurrence of `sep`, keeping empty pieces. -/
def splitChar (sep : Char) : List Char → List (List Char)
  | [] => [[]]
  | c :: cs =>
    if c = sep then [] :: splitChar sep cs
    else
      match splitChar sep cs with
      | [] => [[c]]
      | w :: ws => (c :: w) :: ws

/-- Value of one hexadecimal digit, `none` for a non-hex character. -/
def hexDigitVal (c : Char) : Option Nat :=
  if '0' ≤ c ∧ c ≤ '9' then some (c.toNat - '0'.toNat)
  else if 'a' ≤ c ∧ c ≤ 'f' then some (c.toNat - 'a'.toNat + 10)
  else if 'A' ≤ c ∧ c ≤ 'F' then some (c.toNat - 'A'.toNat + 10)
  else none

/-- Helper for `parseHex`. -/
def parseHexAux : List Char → Nat → Option Nat
  | [], n => some n
  | c :: cs, n =>
    match hexDigitVal c with
    | none => none
    | some d => parseHexAux cs (16 * n + d)

/-- Python `int(s, 16)` on an unsigned hex string: `none` (the raising
case) on the empty string or any non-hex character.  (Python also accepts
surrounding whitespace and a sign, which never occur in the fixed-width
protocol fields parsed here.) -/
def parseHex (s : List Char) : Option Nat :=
  if s = [] then none else parseHexAux s 0

/-! ## RateAnalyzer -/

/-- The dictionary buffered into `RateAnalyzer.last_data` at the end of a
successful cycle.  `query_time` keeps the raw timestamp (the source wraps
it into a `datetime`, a pure representation change). -/
structure RateData where
  rates : List ℚ
  counts : List ℤ
  max_rate : ℚ
  min_rate : ℚ
  time_window : ℚ
  query_time : ℚ
  deriving DecidableEq, Repr

/-- Numeric state of `RateAnalyzer` (the fields of `__init__` that
`calculate` reads or writes; the update thread, logger and wall-clock
fields are omitted). -/
structure RateAnalyzer where
  base : BaseAnalyzer
  update_interval : ℚ
  last_query_time : ℚ
  query_time : ℚ
  time_window : ℚ
  last_data : Option RateData
  previous_scalars : List ℤ
  scalar_buffer : List ℤ
  max_rate : ℚ
  min_rate : ℚ
  first_cycle : Bool
  rates : Option (List ℚ)
  deriving DecidableEq, Repr

namespace RateAnalyzer

/-- `RateAnalyzer.SCALAR_BUF_SIZE`. -/
def SCALAR_BUF_SIZE : Nat := 5

/-- `RateAnalyzer.new_scalar_buffer()`: a zeroed buffer of size 5. -/
def new_scalar_buffer : List ℤ := List.replicate SCALAR_BUF_SIZE 0

/-- One iteration of the item loop in
`RateAnalyzer.extract_scalars_from_message`: for each `i < 5`, if the
item starts with `"S<i>"` and has length 11, overwrite `scalars[i]` with
`int(item[3:], 16)` (`none` models the uncaught `ValueError` on bad hex). -/
def scalarItemUpdate (scalars : List ℤ) (item : List Char) : Option (List ℤ) :=
  (List.range SCALAR_BUF_SIZE).foldlM
    (fun sc i =>
      if List.isPrefixOf ['S', Nat.digitChar i] item ∧ item.length = 11 then
        (parseHex (item.drop 3)).map (fun v => sc.set i (v : ℤ))
      else
        some sc)
    scalars

/-- `RateAnalyzer.extract_scalars_from_message(msg)`: fold
`scalarItemUpdate` over `msg.split()`. -/
def extract_scalars_from_message (msg : String) : Option (List ℤ) :=
  (splitWS msg.data).foldlM scalarItemUpdate new_scalar_buffer

/-- The per-counter loop of `RateAnalyzer.calculate`: for each index `i`
in turn, if `scalars[i] > 0` set `diffs[i] := scalars[i] - previous[i]`
and overwrite `previous[i] := scalars[i]` (in place, as in the source);
otherwise return immediately with the flag `false`, keeping whatever
partial updates have already been applied to `previous`. -/
def rateLoop (scalars : List ℤ) :
    List Nat → List ℤ × List ℤ → (List ℤ × List ℤ) × Bool
  | [], st => (st, true)
  | i :: rest, (previous, diffs) =>
    if 0 < scalars.getD i 0 then
      rateLoop scalars rest
        (previous.set i (scalars.getD i 0),
         diffs.set i (scalars.getD i 0 - previous.getD i 0))
    else
      ((previous, diffs), false)

/-- `RateAnalyzer.calculate(msg_dict)`.  Ignores non-`"DS"` lines; on the
first cycle only baselines `previous_scalars`; otherwise runs the diff
loop, and on success computes `rates = diffs / time_window`, accumulates
`time_window` and `scalar_buffer`, updates the trigger-channel min/max
and buffers `last_data`.  The result is `none` exactly where the Python
raises (invalid hex inside a matching scalar item); the `Bool` is the
returned continue flag (always `True` in the source). -/
def calculate (s : RateAnalyzer) (msg : String) :
    Option (RateAnalyzer × Bool) :=
  if ¬(2 ≤ msg.length ∧ List.isPrefixOf ['D', 'S'] msg.data = true) then
    some (s, true)
  else
    match extract_scalars_from_message msg with
    | none => none
    | some scalars =>
      if s.first_cycle then
        some ({ s with previous_scalars := scalars, first_cycle := false }, true)
      else
        match rateLoop scalars (List.range SCALAR_BUF_SIZE)
            (s.previous_scalars, new_scalar_buffer) with
        | ((previous1, _), false) =>
          some ({ s with previous_scalars := previous1 }, true)
        | ((previous1, diffs), true) =>
          let tw : ℚ := s.query_time - s.last_query_time
          let rates : List ℚ :=
            diffs.map (fun d => (d : ℚ) / tw) ++ [tw] ++ diffs.map (fun d => (d : ℚ))
          let min1 : ℚ := if rates.getD 4 0 < s.min_rate then rates.getD 4 0 else s.min_rate
          let max1 : ℚ := if s.max_rate < rates.getD 4 0 then rates.getD 4 0 else s.max_rate
          some ({ s with
                  previous_scalars := previous1
                  rates := some rates
                  time_window := s.time_window + tw
                  scalar_buffer := List.zipWith (fun x d => x + d) s.scalar_buffer diffs
                  min_rate := min1
                  max_rate := max1
                  last_data := some
                    { rates := rates.take 5
                      counts := scalars
                      max_rate := max1
                      min_rate := min1
                      time_window := tw
                      query_time := s.query_time } }, true)

end RateAnalyzer

/-! ## DecayAnalyzer

Only the parts the coincidence-register round trip depends on are
embedded: the remembered register values, the configuration-acknowledgment
parser of `calculate`, and the `start`/`stop` transport commands.  The
pulse branch of `calculate` delegates to `DecayTriggerThorough.trigger`
(an external trigger-strategy contract living outside these sources) and
is not modelled.  `measurement_duration` bookkeeping is wall-clock only
and is omitted. -/

/-- State of `DecayAnalyzer` relevant to the register round trip:
the base lifecycle state and the two remembered coincidence-window
register values (`previous_coinc_time_03`/`_02`, hex strings; defaults
`"00"`/`"0A"` from `__init__`). -/
structure DecayAnalyzer where
  base : BaseAnalyzer
  previous_coinc_time_03 : String
  previous_coinc_time_02 : String
  muon_counter : Nat
  deriving DecidableEq, Repr

namespace DecayAnalyzer

/-- `DecayAnalyzer.set_previous_coincidence_times(time_03, time_02)`. -/
def set_previous_coincidence_times (d : DecayAnalyzer) (t03 t02 : String) :
    DecayAnalyzer :=
  { d with previous_coinc_time_03 := t03, previous_coinc_time_02 := t02 }

/-- The configuration-acknowledgment parser inside `DecayAnalyzer.calculate`:
on a raw message starting with `"DC"` of length > 2, extract
`split_msg[4].split("=")[1]` and `split_msg[3].split("=")[1]`.  Any
failure is caught in the source (`except Exception`), so `none` here
means "keep the previous remembered configuration". -/
def parse_coincidence_times (raw : String) : Option (String × String) :=
  do
    let p4 ← (splitChar ' ' raw.data).get? 4
    let t03 ← (splitChar '=' p4).get? 1
    let p3 ← (splitChar ' ' raw.data).get? 3
    let t02 ← (splitChar '=' p3).get? 1
    pure (⟨t03⟩, ⟨t02⟩)

/-- The `"DC"` branch of `DecayAnalyzer.calculate`: updates the remembered
coincidence times when parsing succeeds, keeps them otherwise, and
returns `true` (continue the chain) either way.  Callers reach this
branch only when `raw.startswith('DC') and len(raw) > 2`. -/
def calculate_dc (d : DecayAnalyzer) (raw : String) : DecayAnalyzer × Bool :=
  match parse_coincidence_times raw with
  | some (t03, t02) => (d.set_previous_coincidence_times t03 t02, true)
  | none => (d, true)

/-- `DecayAnalyzer.start(run_id, daq)`: base start, then the register
reprogramming commands `DC`, `CE`, `WC 03 04`, `WC 02 0A`, `WC 00 0F`
issued through `daq_put`.  Returns (state, consumer events, transport
commands actually sent). -/
def start (d : DecayAnalyzer) (runId : Nat) (daq : Option Nat) :
    DecayAnalyzer × List CEvent × List String :=
  let (b1, evs) := d.base.start runId daq
  let cmds := ["DC", "CE", "WC 03 04", "WC 02 0A", "WC 00 0F"].flatMap
    (fun c => (b1.daq_put c).2)
  ({ d with base := b1 }, evs, cmds)

/-- `DecayAnalyzer.stop()`: base stop, then restore the remembered
coincidence register values with `WC 03 <t03>` and `WC 02 <t02>`.
(`BaseAnalyzer.stop` does not clear `daq`, so the restore commands still
reach the transport.) -/
def stop (d : DecayAnalyzer) : DecayAnalyzer × List CEvent × List String :=
  let (b1, evs) := d.base.stop
  let cmds := ["WC 03 " ++ d.previous_coinc_time_03,
               "WC 02 " ++ d.previous_coinc_time_02].flatMap
    (fun c => (b1.daq_put c).2)
  ({ d with base := b1 }, evs, cmds)

end DecayAnalyzer

/-! ## PulseAnalyzer -/

/-- Extracted pulses of one line: per channel (trigger channel first), a
list of `(leading_edge, falling_edge-or-None)` pairs. -/
def Pulses : Type := List (List (ℚ × Option ℚ))

namespace PulseAnalyzer

/-- Width of one pulse as computed in `PulseAnalyzer.calculate`:
`fe - le`, or `0.` when no falling edge was recorded. -/
def pulseWidth (p : ℚ × Option ℚ) : ℚ :=
  match p.2 with
  | some fe => fe - p.1
  | none => 0

/-- Per-channel pulse widths: the loop body of `PulseAnalyzer.calculate`
for one channel, appending widths in pulse order. -/
def channelWidths (channel : List (ℚ × Option ℚ)) : List ℚ :=
  channel.map pulseWidth

/-- `PulseAnalyzer.calculate(msg)`.  The input is the envelope's pulses
entry: outer `none` = no `'pulses'` key, inner `none` = key present but
`None`; both publish nothing and continue.  Otherwise the widths of the
data channels `pulses[1:]` fill the dict `{0: [], 1: [], 2: [], 3: []}`
(represented as the list of its values in key order) and are published
with the single timestamp `ts`; the outer `none` result models the
`KeyError` the source raises when more than 4 data channels are present.
Returned: (published payload if any, continue flag). -/
def calculate (ts : ℚ) (pulses? : Option (Option Pulses)) :
    Option (Option (List (List ℚ) × ℚ) × Bool) :=
  match pulses? with
  | none => some (none, true)
  | some none => some (none, true)
  | some (some pulses) =>
    let datachannels := pulses.drop 1
    if datachannels.length ≤ 4 then
      some (some ((List.range 4).map (fun i =>
        match datachannels.get? i with
        | some ch => channelWidths ch
        | none => []), ts), true)
    else
      none

end PulseAnalyzer

/-! ## BufferedConsumer

The worker thread and the producing analyzers interact solely through the
FIFO queue; the drain performed by a refcount-zero `stop` is sequential:
`queue.join()` blocks until every previously-enqueued item has been
processed, then the sentinel `None` is enqueued and the worker joins.  We
therefore model the queue as the list of pending items (enqueue order),
and the drain as the trace of wrapped `push` calls the worker performs
before it observes the sentinel.  Queue items are abstracted to `Nat`
identities; blocking backpressure on a full queue reorders nothing and is
not represented. -/

/-- State of `BufferedConsumer`: the wrapped consumer ids in registration
order, the pending queue in enqueue order, the analyzer refcount and
whether the worker thread is running.  (`analyzer_count` is a Python int
and may go negative on unbalanced stops, hence `ℤ`.) -/
structure BufferedConsumer where
  consumers : List Nat
  queue : List Nat
  analyzer_count : ℤ
  worker_running : Bool
  deriving DecidableEq, Repr

namespace BufferedConsumer

/-- `BufferedConsumer._process_data`, run over the queue contents followed
by whatever comes next: dequeues one entry at a time; the sentinel `none`
breaks the loop; any other item is forwarded to every wrapped consumer's
`push` in registration order.  The result is the trace of
`(consumer, item)` forward calls. -/
def process_data (consumers : List Nat) : List (Option Nat) → List (Nat × Nat)
  | [] => []
  | none :: _ => []
  | some it :: rest => consumers.map (fun c => (c, it)) ++ process_data consumers rest

/-- `BufferedConsumer.push(...)`: enqueue the tuple. -/
def push (b : BufferedConsumer) (it : Nat) : BufferedConsumer :=
  { b with queue := b.queue ++ [it] }

/-- `BufferedConsumer.start(...)`: forwards `start` to every wrapped
consumer; on refcount 0→1 (re)starts the worker. -/
def start (b : BufferedConsumer) (runId : Nat) : BufferedConsumer × List CEvent :=
  ({ b with analyzer_count := b.analyzer_count + 1
            worker_running := b.worker_running || (b.analyzer_count == 0) },
   b.consumers.map (fun c => CEvent.evStart c runId))

/-- `BufferedConsumer.stop(run_id, analyzer_id)`: decrement the refcount;
if it reaches zero, drain the queue (`queue.join()`), poison the worker
with the sentinel and join it; in every case forward `stop` to every
wrapped consumer.  Returns (state, trace of wrapped `push` calls made by
the worker during the drain, wrapped `stop` events). -/
def stop (b : BufferedConsumer) (runId : Option Nat) :
    BufferedConsumer × List (Nat × Nat) × List CEvent :=
  let count1 := b.analyzer_count - 1
  if count1 = 0 then
    ({ b with analyzer_count := count1, queue := [], worker_running := false },
     process_data b.consumers (b.queue.map some ++ [none]),
     b.consumers.map (fun c => CEvent.evStop c runId))
  else
    ({ b with analyzer_count := count1 }, [],
     b.consumers.map (fun c => CEvent.evStop c runId))

end BufferedConsumer

/-! ## FileConsumer

The open-file table `open_files` maps an analyzer id to the set of data
types for which `start` opened a file (we do not track the OS handles
themselves; a write event records which `(analyzer, data type)` file one
line was appended to).  The embedding assumes every `open` succeeds — the
source skips, with a warning, a data type whose file cannot be opened,
which only shrinks the inner set. -/

/-- One observable file-consumer effect: a line appended to the file of
`(analyzer, data type)`, or the "not in expected data types" warning. -/
inductive FEvent where
  | writeLine (aid : String) (dt : DataTypes)
  | warn (aid : String) (dt : DataTypes)
  deriving DecidableEq, Repr

/-- State of `FileConsumer`: the `open_files` association
(analyzer id → data types with an open file). -/
structure FileConsumer where
  open_files : List (String × List DataTypes)
  deriving DecidableEq, Repr

namespace FileConsumer

/-- Dictionary lookup `self.open_files[aid]` / `aid in self.open_files`. -/
def lookupFiles (fc : FileConsumer) (aid : String) : Option (List DataTypes) :=
  (fc.open_files.find? (fun e => e.1 == aid)).map Prod.snd

/-- `FileConsumer.start(run_id, analyzer_id, expected_data_types)`:
(re)binds `open_files[analyzer_id]` to one file per expected data type. -/
def start (fc : FileConsumer) (aid : String) (dts : List DataTypes) :
    FileConsumer :=
  { open_files := (aid, dts) :: fc.open_files.filter (fun e => !(e.1 == aid)) }

/-- `FileConsumer.stop(run_id, analyzer_id)` =
`close_files(analyzer_id)`: closes the analyzer's files and pops its
entry.  `none` models the `KeyError` the source raises when the analyzer
has no entry (never started); a completed `stop` is a `some`. -/
def stop (fc : FileConsumer) (aid : String) : Option FileConsumer :=
  match fc.lookupFiles aid with
  | none => none
  | some _ => some { open_files := fc.open_files.filter (fun e => !(e.1 == aid)) }

/-- Common body of the typed push handlers (`push_rate`, `push_pulse`,
`push_decay`, `push_velocity`, `push_raw`): if the analyzer has no entry
in `open_files` the push is ignored silently (the push-after-stop case);
if the entry lacks a file for this data type, warn and drop; otherwise
append one formatted line to that file. -/
def pushTyped (fc : FileConsumer) (dt : DataTypes) (aid : String) :
    List FEvent :=
  match fc.lookupFiles aid with
  | none => []
  | some dts =>
    if dt ∈ dts then [FEvent.writeLine aid dt]
    else [FEvent.warn aid dt]

/-- `push_rate(rates, counts, time_window, query_time, meta)`. -/
def push_rate (fc : FileConsumer) (aid : String) : List FEvent :=
  fc.pushTyped DataTypes.RATE aid

/-- `push_velocity(flight_time, event_time, meta)`. -/
def push_velocity (fc : FileConsumer) (aid : String) : List FEvent :=
  fc.pushTyped DataTypes.VELOCITY aid

/-- `push_decay(decay_time, event_time, meta)`. -/
def push_decay (fc : FileConsumer) (aid : String) : List FEvent :=
  fc.pushTyped DataTypes.DECAY aid

/-- `push_pulse(pulse_widths, event_time, meta)`. -/
def push_pulse (fc : FileConsumer) (aid : String) : List FEvent :=
  fc.pushTyped DataTypes.PULSE aid

/-- `push_raw(data, meta)`. -/
def push_raw (fc : FileConsumer) (aid : String) : List FEvent :=
  fc.pushTyped DataTypes.RAW aid

/-- `AbstractMuonicConsumer.push`: the switcher dispatching a typed push
on the data type (every `DataTypes` value has a handler; an unknown type
would fall through to a no-op lambda). -/
def push (fc : FileConsumer) (dt : DataTypes) (aid : String) : List FEvent :=
  match dt with
  | DataTypes.RAW => fc.push_raw aid
  | DataTypes.RATE => fc.push_rate aid
  | DataTypes.DECAY => fc.push_decay aid
  | DataTypes.VELOCITY => fc.push_velocity aid
  | DataTypes.PULSE => fc.push_pulse aid

end FileConsumer

/-! ## Dispatcher (`App`)

`App.process_incoming` drains the transport and passes each line through
the ordered chain `[get_thresholds_from_msg, get_channels_from_msg,
PulseExtractor] ++ analyzers`.  We embed the two scanner methods in full
(they are the only steps that can return `False`), the settings they
mutate, and the chain walk.  A step result of `none` models an uncaught
exception escaping the step (Python propagates it out of the loop). -/

/-- Decimal digit value. -/
def decDigitVal (c : Char) : Option Nat :=
  if '0' ≤ c ∧ c ≤ '9' then some (c.toNat - '0'.toNat) else none

/-- Helper for `parseDec`. -/
def parseDecAux : List Char → Nat → Option Nat
  | [], n => some n
  | c :: cs, n =>
    match decDigitVal c with
    | none => none
    | some d => parseDecAux cs (10 * n + d)

/-- Python `int(s)` on an unsigned decimal string: surrounding whitespace
is stripped (as `int` does — the threshold fields carry a trailing
space); `none` (the raising case) on an empty or non-digit remainder.
(A sign prefix, which the protocol never produces, is not modelled.) -/
def parseDec (s : List Char) : Option Nat :=
  let t := ((s.dropWhile Char.isWhitespace).reverse.dropWhile Char.isWhitespace).reverse
  if t = [] then none else parseDecAux t 0

/-- Python `str.zfill(8)`: left-pad with `'0'` to at least 8 characters. -/
def zfill8 (l : List Char) : List Char :=
  List.replicate (8 - l.length) '0' ++ l

/-- The settings dictionary of `App` (the keys `App._default_settings`
declares, minus `meas_duration`, which no embedded operation reads). -/
structure Settings where
  write_daq_status : Bool
  time_window : ℚ
  gate_width : ℚ
  veto : Bool
  veto_ch0 : Bool
  veto_ch1 : Bool
  veto_ch2 : Bool
  active_ch0 : Bool
  active_ch1 : Bool
  active_ch2 : Bool
  active_ch3 : Bool
  coincidence0 : Bool
  coincidence1 : Bool
  coincidence2 : Bool
  coincidence3 : Bool
  threshold_ch0 : ℤ
  threshold_ch1 : ℤ
  threshold_ch2 : ℤ
  threshold_ch3 : ℤ
  deriving DecidableEq, Repr

namespace App

/-- `App._default_settings`. -/
def default_settings : Settings :=
  { write_daq_status := false
    time_window := 5
    gate_width := 0
    veto := false
    veto_ch0 := false
    veto_ch1 := false
    veto_ch2 := false
    active_ch0 := true
    active_ch1 := true
    active_ch2 := true
    active_ch3 := true
    coincidence0 := true
    coincidence1 := false
    coincidence2 := false
    coincidence3 := false
    threshold_ch0 := 300
    threshold_ch1 := 300
    threshold_ch2 := 300
    threshold_ch3 := 300 }

/-- `App.get_thresholds_from_msg(msg)`: on a `"TL"` line longer than 9
characters, parse the four thresholds from the `'='`-separated fields
(`int(msg[i][:-2])` for the first three, `int(msg[4])` for the last) and
return `False`; otherwise return `True`.  `none` models the uncaught
`ValueError`/`IndexError` of a malformed recognized line (the source
would also keep partial updates made before the raise, which this
all-or-nothing embedding drops). -/
def get_thresholds_from_msg (stg : Settings) (msg : String) :
    Option (Settings × Bool) :=
  if List.isPrefixOf ['T', 'L'] msg.data ∧ 9 < msg.length then
    let parts := splitChar '=' msg.data
    do
      let p1 ← parts.get? 1
      let v0 ← parseDec (p1.take (p1.length - 2))
      let p2 ← parts.get? 2
      let v1 ← parseDec (p2.take (p2.length - 2))
      let p3 ← parts.get? 3
      let v2 ← parseDec (p3.take (p3.length - 2))
      let p4 ← parts.get? 4
      let v3 ← parseDec p4
      pure ({ stg with threshold_ch0 := v0, threshold_ch1 := v1,
                       threshold_ch2 := v2, threshold_ch3 := v3 }, false)
  else
    some (stg, true)

/-- `App.get_channels_from_msg(msg)`: on a `"DC "` line longer than 25
characters, decode the channel/coincidence/veto byte `msg[1][3:]` (as the
zero-filled 8-character binary string the source slices), the coincidence
time `msg[4..3]` fields, update the settings accordingly and return
`False`; otherwise return `True`.  `none` models an uncaught exception on
a malformed recognized line (same all-or-nothing caveat as the threshold
scanner). -/
def get_channels_from_msg (stg : Settings) (msg : String) :
    Option (Settings × Bool) :=
  if List.isPrefixOf ['D', 'C', ' '] msg.data ∧ 25 < msg.length then
    let parts := splitChar ' ' msg.data
    do
      let p4 ← parts.get? 4
      let t4 ← (splitChar '=' p4).get? 1
      let p3 ← parts.get? 3
      let t3 ← (splitChar '=' p3).get? 1
      let coincidence_time := t4 ++ t3
      let p1 ← parts.get? 1
      let mm ← parseHex (p1.drop 3)
      let bits := zfill8 (Nat.toDigits 2 mm)
      let veto_config := bits.take 2
      let coincidence_config := (bits.drop 2).take 2
      let channel_config := (bits.drop 4).take 4
      let gw ← parseHex coincidence_time
      let stg := { stg with gate_width := (gw * 10 : ℕ) }
      let stg := { stg with veto := true, veto_ch0 := false,
                            veto_ch1 := false, veto_ch2 := false }
      let stg := { stg with
        active_ch0 := channel_config.getD 3 '0' == '1'
        active_ch1 := channel_config.getD 2 '0' == '1'
        active_ch2 := channel_config.getD 1 '0' == '1'
        active_ch3 := channel_config.getD 0 '0' == '1' }
      let stg := { stg with
        coincidence0 := coincidence_config == ['0', '0']
        coincidence1 := coincidence_config == ['0', '1']
        coincidence2 := coincidence_config == ['1', '0']
        coincidence3 := coincidence_config == ['1', '1'] }
      let stg :=
        if veto_config == ['0', '0'] then { stg with veto := false }
        else if veto_config == ['0', '1'] then { stg with veto_ch0 := true }
        else if veto_config == ['1', '0'] then { stg with veto_ch1 := true }
        else if veto_config == ['1', '1'] then { stg with veto_ch2 := true }
        else stg
      pure (stg, false)
  else
    some (stg, true)

/-- Modelled from the spec: the pulse-extraction step (`PulseExtractor`
in `muonic/lib/utils.py`, outside the sources under verification)
populates the envelope's pulses and, per §4.8, never short-circuits the
chain — only the one-shot config scanners stop a line. -/
def pulse_extraction_step : String → Settings → Option (Settings × Bool) :=
  fun _ stg => some (stg, true)

/-- A registered analyzer as a chain step: every concrete analyzer's
`calculate` in `analyzers.py` returns `True` and never touches the
settings.  (Exceptions an analyzer could raise on malformed protocol
lines are not represented in this step.) -/
def analyzer_step : String → Settings → Option (Settings × Bool) :=
  fun _ stg => some (stg, true)

/-- One element of `App.analyzers`: its position id (for the run log),
whether it is a `BaseAnalyzer` (pre-processing steps are plain callables),
its `active` flag, and its per-line action. -/
structure ChainStep where
  sid : Nat
  isAnalyzer : Bool
  active : Bool
  run : String → Settings → Option (Settings × Bool)

/-- The dispatcher state threaded through a line: the settings and the
log of the step ids that actually ran (our instrumentation of the loop). -/
structure DispatcherState where
  settings : Settings
  ran : List Nat

/-- The per-line loop of `App.process_incoming`: skip analyzer steps that
are not active; run every other step; a step returning `False` breaks
the loop for this line; `none` from a step is an exception escaping the
loop. -/
def processLine : List ChainStep → String → DispatcherState →
    Option DispatcherState
  | [], _, st => some st
  | s :: rest, msg, st =>
    if !s.isAnalyzer || s.active then
      match s.run msg st.settings with
      | none => none
      | some (stg1, cont) =>
        let st1 : DispatcherState := { settings := stg1, ran := st.ran ++ [s.sid] }
        if cont then processLine rest msg st1 else some st1
    else
      processLine rest msg st

/-- `App.process_incoming`: every available line is passed through the
full chain from its beginning, in arrival order. -/
def process_incoming (chain : List ChainStep) (msgs : List String)
    (st : DispatcherState) : Option DispatcherState :=
  msgs.foldlM (fun s m => processLine chain m s) st

/-- The chain `App.__init__` builds:
`[get_thresholds_from_msg, get_channels_from_msg, PulseExtractor]`
(ids 0, 1, 2) followed by the registered analyzers
(given as (id, active) pairs). -/
def appChain (analyzers : List (Nat × Bool)) : List ChainStep :=
  [⟨0, false, false, fun msg stg => get_thresholds_from_msg stg msg⟩,
   ⟨1, false, false, fun msg stg => get_channels_from_msg stg msg⟩,
   ⟨2, false, false, pulse_extraction_step⟩]
  ++ analyzers.map (fun p => ⟨p.1, true, p.2, analyzer_step⟩)

end App

/-! ## Object identity of default-argument collections

Python evaluates a `def`'s default argument once, at function definition
time; `BaseAnalyzer.__init__(self, consumers=[], ...)` with
`self.consumers = consumers` therefore aliases one shared list object
across every default-constructed analyzer.  To reason about aliasing we
use a tiny heap of list cells: a list-valued attribute is a cell
reference, and mutation goes through the heap. -/

/-- A heap of Python list objects: cell contents plus the next fresh
reference. -/
structure PyHeap where
  cells : Nat → List Nat
  next : Nat

namespace PyHeap

/-- Allocate a fresh list object. -/
def alloc (h : PyHeap) (v : List Nat) : PyHeap × Nat :=
  ({ cells := fun r => if r = h.next then v else h.cells r, next := h.next + 1 },
   h.next)

/-- Read a list object. -/
def readCell (h : PyHeap) (r : Nat) : List Nat :=
  h.cells r

/-- `list.append` on a list object. -/
def appendCell (h : PyHeap) (r : Nat) (x : Nat) : PyHeap :=
  { h with cells := fun q => if q = r then h.cells r ++ [x] else h.cells q }

end PyHeap

/-- The heap after `analyzers.py` is imported: defining
`BaseAnalyzer.__init__` evaluates its default `consumers=[]` once,
allocating the single shared default list (cell 0). -/
def moduleHeap : PyHeap := (PyHeap.alloc ⟨fun _ => [], 0⟩ []).1

/-- The cell holding `BaseAnalyzer.__init__`'s default `consumers` list. -/
def defaultConsumersCell : Nat := (PyHeap.alloc ⟨fun _ => [], 0⟩ []).2

/-- An analyzer object: its object identity and the identity of its
`consumers` list. -/
structure AnalyzerObj where
  oid : Nat
  consumersRef : Nat
  deriving DecidableEq, Repr

/-- `BaseAnalyzer(consumers)` with an explicit argument: the attribute
aliases the caller's list. -/
def newAnalyzerWith (oid r : Nat) : AnalyzerObj := ⟨oid, r⟩

/-- `BaseAnalyzer()` with the default argument: `self.consumers =
consumers` aliases the one list created at class-definition time, so
every default construction — whatever the instance identity — holds the
same list reference; no per-instance allocation happens. -/
def newAnalyzerDefault (oid : Nat) : AnalyzerObj := ⟨oid, defaultConsumersCell⟩

/-- `analyzer.consumers.append(c)` (how a consumer is registered on an
analyzer's collection). -/
def registerConsumer (h : PyHeap) (a : AnalyzerObj) (c : Nat) : PyHeap :=
  h.appendCell a.consumersRef c

/-- The contents of an analyzer's consumer collection. -/
def consumersOf (h : PyHeap) (a : AnalyzerObj) : List Nat :=
  h.readCell a.consumersRef

/-- An `App` object, reduced to the identity of its `analyzers` list. -/
structure AppObj where
  analyzersRef : Nat
  deriving DecidableEq, Repr

/-- `App(options, analyzers)`: `self.analyzers = [get_thresholds_from_msg,
get_channels_from_msg, PulseExtractor(...)]` builds a *new* list per
instance (the three bound pre-processing steps are represented by the
reserved ids 0, 1, 2), then `add_analyzers` extends it with the passed
elements — the default `analyzers=[]` list is only read, never aliased
into the instance. -/
def newApp (h : PyHeap) (analyzers : List Nat) : PyHeap × AppObj :=
  let (h1, r) := h.alloc ([0, 1, 2] ++ analyzers)
  (h1, ⟨r⟩)

/-- `App.add_analyzer`: appends to the instance's own list. -/
def add_analyzer (h : PyHeap) (app : AppObj) (x : Nat) : PyHeap :=
  h.appendCell app.analyzersRef x

/-- The contents of an `App`'s analyzer collection. -/
def analyzersOf (h : PyHeap) (app : AppObj) : List Nat :=
  h.readCell app.analyzersRef

/-! ## Concrete states used to instantiate the theorems -/

/-- An active analyzer with two consumers, run id 5 and transport 9. -/
def analyzerExample : BaseAnalyzer :=
  ⟨[1, 2], true, false, none, none, some 5, some 9⟩

/-- A rate analyzer on a non-first cycle: baseline `[10,10,10,10,10]`,
query times giving a 2-second window. -/
def rateExample : RateAnalyzer :=
  { base := BaseAnalyzer.init []
    update_interval := 1
    last_query_time := 0
    query_time := 2
    time_window := 0
    last_data := none
    previous_scalars := [10, 10, 10, 10, 10]
    scalar_buffer := [0, 0, 0, 0, 0]
    max_rate := 0
    min_rate := 99999999999999999999999999999999999
    first_cycle := false
    rates := none }

/-- Scalar dump carrying `[15, 12, 10, 20, 13]`. -/
def dsMsgGood : String :=
  "DS S0=0000000F S1=0000000C S2=0000000A S3=00000014 S4=0000000D"

/-- Scalar dump carrying `[15, 0, 10, 20, 13]` — the second scalar is
zero (corrupt telemetry). -/
def dsMsgBad : String :=
  "DS S0=0000000F S1=00000000 S2=0000000A S3=00000014 S4=0000000D"

/-- A complete channel-configuration acknowledgment (the documented `DC`
response format, 26 characters). -/
def dcAckExample : String := "DC C0=23 C1=71 C2=0A C3=00"

/-- A buffered consumer wrapping consumers 1 and 2, with three pending
items (one duplicated) and a single active analyzer. -/
def bufExample : BufferedConsumer := ⟨[1, 2], [10, 20, 10], 1, true⟩

/-- A file consumer with open files for two analyzers. -/
def fileExample : FileConsumer :=
  ⟨[("RateAnalyzer", [DataTypes.RATE]), ("PulseAnalyzer", [DataTypes.PULSE])]⟩

/-- A decay analyzer remembering registers `("23", "0A")` from the last
configuration acknowledgment. -/
def decayExample : DecayAnalyzer := ⟨BaseAnalyzer.init [3], "23", "0A", 0⟩

/-- The settings `get_channels_from_msg` produces from `dcAckExample`
over the defaults: control byte `0x23 = 0b00100011` (channels 0-1
active, coincidence bits `10`, gate `0x000A * 10 = 100` ns, no veto). -/
def dcAckSettings : Settings :=
  { App.default_settings with
    gate_width := 100
    veto := false
    active_ch0 := true
    active_ch1 := true
    active_ch2 := false
    active_ch3 := false
    coincidence0 := false
    coincidence1 := false
    coincidence2 := true
    coincidence3 := false }

/-! # Theorems -/

/-- C1.  For an analyzer active with run id `r` and transport `t`,
`disable()` followed by `enable()` returns it to the active state with
the same run id and transport; over `start → disable → enable → stop`
from a fresh analyzer, every registered consumer observes exactly one
`start` and one `stop` per activation window (one `stop` at disable, one
`start` at enable), with the run id preserved across the pair. -/
theorem analyzer_disable_enable_roundtrip
    (a : BaseAnalyzer) (r : Nat) (t : Option Nat)
    (cs : List Nat) (rid : Nat) (tr : Option Nat)
    (ha : a.active = true)
    (hr : a.currentRunId = some r) (ht : a.daq = t) :
    (((a.setDisabled true).1.setDisabled false).1.active = true ∧
     ((a.setDisabled true).1.setDisabled false).1.currentRunId = some r ∧
     ((a.setDisabled true).1.setDisabled false).1.daq = t ∧
     ((a.setDisabled true).1.setDisabled false).1.disabled = false ∧
     (a.setDisabled true).2 = a.consumers.map (fun c => CEvent.evStop c (some r)) ∧
     ((a.setDisabled true).1.setDisabled false).2 =
       a.consumers.map (fun c => CEvent.evStart c r)) ∧
    (((BaseAnalyzer.init cs).start rid tr).2 =
       cs.map (fun c => CEvent.evStart c rid) ∧
     (((BaseAnalyzer.init cs).start rid tr).1.setDisabled true).2 =
       cs.map (fun c => CEvent.evStop c (some rid)) ∧
     ((((BaseAnalyzer.init cs).start rid tr).1.setDisabled true).1.setDisabled
         false).2 =
       cs.map (fun c => CEvent.evStart c rid) ∧
     (((((BaseAnalyzer.init cs).start rid tr).1.setDisabled true).1.setDisabled
         false).1.stop).2 =
       cs.map (fun c => CEvent.evStop c (some rid))) := by
  constructor
  · simp [BaseAnalyzer.setDisabled, BaseAnalyzer.start, ha, hr, ht]
  · simp [BaseAnalyzer.setDisabled, BaseAnalyzer.start, BaseAnalyzer.stop,
      BaseAnalyzer.init]

/-- Witness for C1 at the concrete active analyzer `analyzerExample`
(run 5, transport 9, consumers 1 and 2) and a fresh analyzer run with
id 7 and transport 4. -/
theorem analyzer_disable_enable_roundtrip_witness :
    ((analyzerExample.setDisabled true).1.setDisabled false).1.currentRunId = some 5 ∧
    ((analyzerExample.setDisabled true).1.setDisabled false).1.daq = some 9 ∧
    (analyzerExample.setDisabled true).2 =
      [CEvent.evStop 1 (some 5), CEvent.evStop 2 (some 5)] ∧
    ((analyzerExample.setDisabled true).1.setDisabled false).2 =
      [CEvent.evStart 1 5, CEvent.evStart 2 5] ∧
    ((BaseAnalyzer.init [1, 2]).start 7 (some 4)).2 =
      [CEvent.evStart 1 7, CEvent.evStart 2 7] := by
  have h := analyzer_disable_enable_roundtrip analyzerExample 5 (some 9) [1, 2] 7
    (some 4) rfl rfl rfl
  exact ⟨h.1.2.1, h.1.2.2.1, by simpa [analyzerExample] using h.1.2.2.2.2.1,
    by simpa [analyzerExample] using h.1.2.2.2.2.2, by simpa using h.2.1⟩

/-- C10.  No `BaseAnalyzer` operation can make an analyzer simultaneously
active and disabled: each of `start`, `stop` and the `disabled` setter
preserves `¬(active ∧ disabled)`; marking an active analyzer disabled
deactivates it first (clearing `current_run_id` and `daq` while capturing
them as pending-resume arguments), and `start` on a disabled analyzer
only records the pending-resume arguments.  (`publish` and `finish` do
not modify the state at all in this embedding, so they preserve the
invariant trivially.) -/
theorem analyzer_never_active_and_disabled
    (a : BaseAnalyzer) (r : Nat) (t : Option Nat) (v : Bool)
    (hinv : ¬(a.active = true ∧ a.disabled = true)) :
    (¬((a.start r t).1.active = true ∧ (a.start r t).1.disabled = true)) ∧
    (¬(a.stop.1.active = true ∧ a.stop.1.disabled = true)) ∧
    (¬((a.setDisabled v).1.active = true ∧ (a.setDisabled v).1.disabled = true)) ∧
    (a.active = true →
      (a.setDisabled true).1.active = false ∧
      (a.setDisabled true).1.currentRunId = none ∧
      (a.setDisabled true).1.daq = none ∧
      (a.setDisabled true).1.lastRunId = a.currentRunId ∧
      (a.setDisabled true).1.lastDaq = a.daq) ∧
    (a.disabled = true →
      (a.start r t).1 = { a with lastRunId := some r, lastDaq := t }) := by
  cases hact : a.active <;> cases hdis : a.disabled <;> cases v <;>
    cases hl : a.lastRunId <;>
    simp_all [BaseAnalyzer.start, BaseAnalyzer.stop, BaseAnalyzer.setDisabled]

/-- Witness for C10 at the concrete active analyzer `analyzerExample`. -/
theorem analyzer_never_active_and_disabled_witness :
    (¬((analyzerExample.start 7 (some 4)).1.active = true ∧
       (analyzerExample.start 7 (some 4)).1.disabled = true)) ∧
    (analyzerExample.setDisabled true).1.active = false ∧
    (analyzerExample.setDisabled true).1.lastRunId = some 5 := by
  have h := analyzer_never_active_and_disabled analyzerExample 7 (some 4) true
    (by decide)
  exact ⟨h.1, (h.2.2.2.1 rfl).1, by simpa using (h.2.2.2.1 rfl).2.2.2.1⟩

/-- C2, counterexample.  The claim says an aborted cycle leaves the
previous-scalar snapshot "completely unchanged for every channel index".
On the scalar dump `[15, 0, 10, 20, 13]` (zero at index 1) against the
baseline `[10, 10, 10, 10, 10]`, the cycle is indeed abandoned (no
`last_data`, continue flag `true`) — but the snapshot comes out as
`[15, 10, 10, 10, 10]`: the loop already overwrote index 0 before it saw
the zero at index 1. -/
theorem rate_abort_mutates_previous_cex :
    (RateAnalyzer.calculate rateExample dsMsgBad).map
        (fun r => (r.1.previous_scalars, r.1.last_data, r.2)) =
      some ([15, 10, 10, 10, 10], none, true) ∧
    rateExample.previous_scalars = [10, 10, 10, 10, 10] ∧
    ¬ ([15, 10, 10, 10, 10] : List ℤ) = [10, 10, 10, 10, 10] := by
  refine ⟨by rfl, by rfl, by decide⟩

/-- C2, amended.  On a non-first `"DS"` cycle whose extracted scalars have
their first non-positive entry at index `j`, the whole cycle's
computation is abandoned (continue flag `true`; `last_data`, `rates`,
accumulated `time_window`, `scalar_buffer` and min/max untouched), but
the previous-scalar snapshot is only partially preserved: entries at
indices `< j` have already been overwritten with the new scalar values,
while entries at indices `≥ j` keep their previous values.  (Only for
`j = 0` is the snapshot completely unchanged, as the original claim
states.) -/
theorem rate_abort_partial_snapshot
    (s : RateAnalyzer) (msg : String)
    (p0 p1 p2 p3 p4 n0 n1 n2 n3 n4 : ℤ)
    (hlen : 2 ≤ msg.length)
    (hds : List.isPrefixOf ['D', 'S'] msg.data = true)
    (hex : RateAnalyzer.extract_scalars_from_message msg = some [n0, n1, n2, n3, n4])
    (hfc : s.first_cycle = false)
    (hprev : s.previous_scalars = [p0, p1, p2, p3, p4])
    (j : Nat) (hj : j < 5)
    (hpos : ∀ i, i < j → 0 < [n0, n1, n2, n3, n4].getD i 0)
    (hneg : [n0, n1, n2, n3, n4].getD j 0 ≤ 0) :
    RateAnalyzer.calculate s msg =
      some ({ s with previous_scalars :=
        (List.range 5).map (fun i =>
          if i < j then [n0, n1, n2, n3, n4].getD i 0
          else [p0, p1, p2, p3, p4].getD i 0) }, true) := by
  have hne : ¬ 0 < [n0, n1, n2, n3, n4].getD j 0 := not_lt.mpr hneg
  interval_cases j
  · have g0 : ¬ (0 : ℤ) < n0 := by simpa [List.getD] using hne
    simp [RateAnalyzer.calculate, RateAnalyzer.rateLoop,
      RateAnalyzer.SCALAR_BUF_SIZE, RateAnalyzer.new_scalar_buffer,
      List.range_succ, List.getD, hex, hfc, hprev, hds, hlen.not_lt, g0]
  · have f0 : (0 : ℤ) < n0 := by simpa [List.getD] using hpos 0 (by norm_num)
    have g1 : ¬ (0 : ℤ) < n1 := by simpa [List.getD] using hne
    simp [RateAnalyzer.calculate, RateAnalyzer.rateLoop,
      RateAnalyzer.SCALAR_BUF_SIZE, RateAnalyzer.new_scalar_buffer,
      List.range_succ, List.getD, hex, hfc, hprev, hds, hlen.not_lt, f0, g1]
  · have f0 : (0 : ℤ) < n0 := by simpa [List.getD] using hpos 0 (by norm_num)
    have f1 : (0 : ℤ) < n1 := by simpa [List.getD] using hpos 1 (by norm_num)
    have g2 : ¬ (0 : ℤ) < n2 := by simpa [List.getD] using hne
    simp [RateAnalyzer.calculate, RateAnalyzer.rateLoop,
      RateAnalyzer.SCALAR_BUF_SIZE, RateAnalyzer.new_scalar_buffer,
      List.range_succ, List.getD, hex, hfc, hprev, hds, hlen.not_lt, f0, f1, g2]
  · have f0 : (0 : ℤ) < n0 := by simpa [List.getD] using hpos 0 (by norm_num)
    have f1 : (0 : ℤ) < n1 := by simpa [List.getD] using hpos 1 (by norm_num)
    have f2 : (0 : ℤ) < n2 := by simpa [List.getD] using hpos 2 (by norm_num)
    have g3 : ¬ (0 : ℤ) < n3 := by simpa [List.getD] using hne
    simp [RateAnalyzer.calculate, RateAnalyzer.rateLoop,
      RateAnalyzer.SCALAR_BUF_SIZE, RateAnalyzer.new_scalar_buffer,
      List.range_succ, List.getD, hex, hfc, hprev, hds, hlen.not_lt, f0, f1, f2, g3]
  · have f0 : (0 : ℤ) < n0 := by simpa [List.getD] using hpos 0 (by norm_num)
    have f1 : (0 : ℤ) < n1 := by simpa [List.getD] using hpos 1 (by norm_num)
    have f2 : (0 : ℤ) < n2 := by simpa [List.getD] using hpos 2 (by norm_num)
    have f3 : (0 : ℤ) < n3 := by simpa [List.getD] using hpos 3 (by norm_num)
    have g4 : ¬ (0 : ℤ) < n4 := by simpa [List.getD] using hne
    simp [RateAnalyzer.calculate, RateAnalyzer.rateLoop,
      RateAnalyzer.SCALAR_BUF_SIZE, RateAnalyzer.new_scalar_buffer,
      List.range_succ, List.getD, hex, hfc, hprev, hds, hlen.not_lt, f0, f1, f2,
      f3, g4]

/-- Witness for the amended C2: baseline `[10,10,10,10,10]`, scalars
`[15, 0, 10, 20, 13]`, first non-positive index `j = 1` — the snapshot
after the aborted cycle is `[15, 10, 10, 10, 10]`. -/
theorem rate_abort_partial_snapshot_witness :
    RateAnalyzer.calculate rateExample dsMsgBad =
      some ({ rateExample with previous_scalars := [15, 10, 10, 10, 10] }, true) := by
  have h := rate_abort_partial_snapshot rateExample dsMsgBad
    10 10 10 10 10 15 0 10 20 13 (by decide) (by rfl) (by rfl) (by rfl) (by rfl)
    1 (by decide) (by decide) (by decide)
  simpa using h

/-- C3.  On a non-first `"DS"` cycle with all five scalars positive,
`calculate` sets, for each counter `i`, `diff_i = new_i - previous_i` and
`rate_i = diff_i / (query_time - last_query_time)`, overwrites the
snapshot with the new scalars, buffers the result (rates, raw counts,
min/max, window, timestamp) in `last_data` and returns `true`. -/
theorem rate_cycle_rates_and_snapshot
    (s : RateAnalyzer) (msg : String)
    (p0 p1 p2 p3 p4 n0 n1 n2 n3 n4 : ℤ)
    (hlen : 2 ≤ msg.length)
    (hds : List.isPrefixOf ['D', 'S'] msg.data = true)
    (hex : RateAnalyzer.extract_scalars_from_message msg = some [n0, n1, n2, n3, n4])
    (hfc : s.first_cycle = false)
    (hprev : s.previous_scalars = [p0, p1, p2, p3, p4])
    (h0 : 0 < n0) (h1 : 0 < n1) (h2 : 0 < n2) (h3 : 0 < n3) (h4 : 0 < n4) :
    RateAnalyzer.calculate s msg = some (⟨s.base, s.update_interval,
      s.last_query_time, s.query_time,
      s.time_window + (s.query_time - s.last_query_time),
      some ⟨[((n0 - p0 : ℤ) : ℚ) / (s.query_time - s.last_query_time),
             ((n1 - p1 : ℤ) : ℚ) / (s.query_time - s.last_query_time),
             ((n2 - p2 : ℤ) : ℚ) / (s.query_time - s.last_query_time),
             ((n3 - p3 : ℤ) : ℚ) / (s.query_time - s.last_query_time),
             ((n4 - p4 : ℤ) : ℚ) / (s.query_time - s.last_query_time)],
            [n0, n1, n2, n3, n4],
            (if s.max_rate < ((n4 - p4 : ℤ) : ℚ) / (s.query_time - s.last_query_time)
             then ((n4 - p4 : ℤ) : ℚ) / (s.query_time - s.last_query_time)
             else s.max_rate),
            (if ((n4 - p4 : ℤ) : ℚ) / (s.query_time - s.last_query_time) < s.min_rate
             then ((n4 - p4 : ℤ) : ℚ) / (s.query_time - s.last_query_time)
             else s.min_rate),
            s.query_time - s.last_query_time,
            s.query_time⟩,
      [n0, n1, n2, n3, n4],
      List.zipWith (fun x d => x + d) s.scalar_buffer
        [n0 - p0, n1 - p1, n2 - p2, n3 - p3, n4 - p4],
      (if s.max_rate < ((n4 - p4 : ℤ) : ℚ) / (s.query_time - s.last_query_time)
       then ((n4 - p4 : ℤ) : ℚ) / (s.query_time - s.last_query_time)
       else s.max_rate),
      (if ((n4 - p4 : ℤ) : ℚ) / (s.query_time - s.last_query_time) < s.min_rate
       then ((n4 - p4 : ℤ) : ℚ) / (s.query_time - s.last_query_time)
       else s.min_rate),
      false,
      some [((n0 - p0 : ℤ) : ℚ) / (s.query_time - s.last_query_time),
            ((n1 - p1 : ℤ) : ℚ) / (s.query_time - s.last_query_time),
            ((n2 - p2 : ℤ) : ℚ) / (s.query_time - s.last_query_time),
            ((n3 - p3 : ℤ) : ℚ) / (s.query_time - s.last_query_time),
            ((n4 - p4 : ℤ) : ℚ) / (s.query_time - s.last_query_time),
            s.query_time - s.last_query_time,
            ((n0 - p0 : ℤ) : ℚ), ((n1 - p1 : ℤ) : ℚ), ((n2 - p2 : ℤ) : ℚ),
            ((n3 - p3 : ℤ) : ℚ), ((n4 - p4 : ℤ) : ℚ)]⟩, true) := by
  simp [RateAnalyzer.calculate, hex, hfc, hprev, hlen.not_lt, hds,
    RateAnalyzer.rateLoop, RateAnalyzer.SCALAR_BUF_SIZE,
    RateAnalyzer.new_scalar_buffer, List.range_succ,
    List.getD, h0, h1, h2, h3, h4]

/-- Witness for C3: `previous = [10,10,10,10,10]`,
`new = [15,12,10,20,13]`, window `2.0` seconds — the published rates are
`[2.5, 1.0, 0.0, 5.0, 1.5]` and the snapshot becomes the new scalars. -/
theorem rate_cycle_rates_and_snapshot_witness :
    (RateAnalyzer.calculate rateExample dsMsgGood).map
        (fun r => (r.1.previous_scalars, r.1.last_data.map RateData.rates, r.2)) =
      some ([15, 12, 10, 20, 13],
            some [5 / 2, 1, 0, 5, 3 / 2], true) := by
  have h := rate_cycle_rates_and_snapshot rateExample dsMsgGood
    10 10 10 10 10 15 12 10 20 13 (by decide) (by rfl) (by rfl) (by rfl) (by rfl)
    (by decide) (by decide) (by decide) (by decide) (by decide)
  rw [h]
  norm_num [rateExample]

/-- The worker's drain of the whole queue followed by the sentinel: each
item is fanned out to every wrapped consumer, in enqueue order. -/
theorem process_data_drain (cs q : List Nat) :
    BufferedConsumer.process_data cs (q.map some ++ [none]) =
      q.flatMap (fun it => cs.map (fun c => (c, it))) := by
  induction q with
  | nil => simp [BufferedConsumer.process_data]
  | cons it rest ih => simp [BufferedConsumer.process_data, ih]

/-- A consumer not in the registration list receives nothing from one
item's fan-out. -/
theorem fan_filter_nil (cs : List Nat) (c : Nat) (h : c ∉ cs) (it : Nat) :
    (cs.map (fun d => (d, it))).filter (fun e => e.1 == c) = [] := by
  induction cs with
  | nil => simp
  | cons c0 rest ih =>
    simp only [List.mem_cons, not_or] at h
    simp [List.filter_cons, Ne.symm h.1, ih h.2]

/-- A registered consumer (registration list duplicate-free) receives one
item's fan-out exactly once. -/
theorem fan_filter_single (cs : List Nat) (c : Nat) (hnd : cs.Nodup)
    (hc : c ∈ cs) (it : Nat) :
    (cs.map (fun d => (d, it))).filter (fun e => e.1 == c) = [(c, it)] := by
  induction cs with
  | nil => simp at hc
  | cons c0 rest ih =>
    rcases List.mem_cons.mp hc with h | h
    · subst h
      simp [List.filter_cons, fan_filter_nil rest c (List.nodup_cons.mp hnd).1 it]
    · have hne : ¬(c0 = c) := by
        rintro rfl
        exact (List.nodup_cons.mp hnd).1 h
      simp [List.filter_cons, hne, ih (List.nodup_cons.mp hnd).2 h]

/-- C4.  When `stop` brings the refcount to zero, the worker forwards
every item enqueued before that stop — in enqueue order, to every wrapped
consumer in registration order — before it exits (the drain trace ends
with the sentinel and `worker_running` is `false` afterwards); projected
onto any single wrapped consumer, the deliveries are exactly the queue:
nothing lost, nothing duplicated, nothing reordered. -/
theorem buffered_stop_drains_all_in_order
    (b : BufferedConsumer) (runId : Option Nat)
    (hcount : b.analyzer_count = 1) (hnd : b.consumers.Nodup) :
    (b.stop runId).2.1 =
      b.queue.flatMap (fun it => b.consumers.map (fun c => (c, it))) ∧
    (b.stop runId).1.worker_running = false ∧
    (b.stop runId).1.queue = [] ∧
    (∀ c ∈ b.consumers,
      (((b.stop runId).2.1.filter (fun e => e.1 == c)).map Prod.snd) = b.queue) := by
  have hz : b.analyzer_count - 1 = 0 := by rw [hcount]; ring
  refine ⟨?_, ?_, ?_, ?_⟩
  · simp [BufferedConsumer.stop, hz, process_data_drain]
  · simp [BufferedConsumer.stop, hz]
  · simp [BufferedConsumer.stop, hz]
  · intro c hc
    simp only [BufferedConsumer.stop, hz, if_pos, process_data_drain]
    induction b.queue with
    | nil => simp
    | cons it rest ih =>
      simp [List.filter_append, fan_filter_single b.consumers c hnd hc it, ih]

/-- Witness for C4 at `bufExample` (consumers 1, 2; queue
`[10, 20, 10]`, refcount 1): both consumers receive `[10, 20, 10]`,
once each, in order, and the worker exits. -/
theorem buffered_stop_drains_all_in_order_witness :
    (bufExample.stop none).2.1 =
      [(1, 10), (2, 10), (1, 20), (2, 20), (1, 10), (2, 10)] ∧
    (((bufExample.stop none).2.1.filter (fun e => e.1 == 1)).map Prod.snd) =
      [10, 20, 10] ∧
    (((bufExample.stop none).2.1.filter (fun e => e.1 == 2)).map Prod.snd) =
      [10, 20, 10] ∧
    (bufExample.stop none).1.worker_running = false := by
  have h := buffered_stop_drains_all_in_order bufExample none rfl (by decide)
  exact ⟨by simpa [bufExample] using h.1, h.2.2.2 1 (by decide),
    h.2.2.2 2 (by decide), h.2.1⟩

/-- C5.  In the dispatcher's per-line chain: a non-analyzer step whose
action returns `False` (as the channel-config scanner does on a complete
acknowledgment) ends that line's walk — no later step runs; an analyzer
step that is not active is skipped without being invoked; the concrete
acknowledgment `dcAckExample` makes the scanner return `False`; and over
two lines, the second line is passed through the full chain from the
beginning (run log `[0, 1]` for the acknowledgment, then
`[0, 1, 2, 3, 4]` for the next line). -/
theorem dispatcher_config_ack_short_circuits
    (rest : List App.ChainStep) (msg : String) (stg stg1 : Settings)
    (log : List Nat) (s : App.ChainStep)
    (hna : s.isAnalyzer = false)
    (hrun : s.run msg stg = some (stg1, false)) :
    App.processLine (s :: rest) msg ⟨stg, log⟩ = some ⟨stg1, log ++ [s.sid]⟩ ∧
    (∀ t : App.ChainStep, t.isAnalyzer = true → t.active = false →
      App.processLine (t :: rest) msg ⟨stg, log⟩ =
        App.processLine rest msg ⟨stg, log⟩) ∧
    (App.get_channels_from_msg App.default_settings dcAckExample).map Prod.snd =
      some false ∧
    (App.process_incoming (App.appChain [(3, true), (4, true)])
        [dcAckExample, "anyOtherLine"]
        ⟨App.default_settings, []⟩).map App.DispatcherState.ran =
      some [0, 1, 0, 1, 2, 3, 4] := by
  refine ⟨?_, ?_, by rfl, by rfl⟩
  · simp [App.processLine, hna, hrun]
  · intro t h1 h2
    simp [App.processLine, h1, h2]

/-- Witness for C5: the channel scanner (id 1) consumes `dcAckExample`
and stops the line before two active analyzer steps; the two-line run
log is `[0, 1]` then `[0, 1, 2, 3, 4]`. -/
theorem dispatcher_config_ack_short_circuits_witness :
    App.processLine
      [⟨1, false, false, fun m stg => App.get_channels_from_msg stg m⟩,
       ⟨3, true, true, App.analyzer_step⟩, ⟨4, true, true, App.analyzer_step⟩]
      dcAckExample ⟨App.default_settings, [0]⟩ =
      some ⟨dcAckSettings, [0, 1]⟩ ∧
    (App.process_incoming (App.appChain [(3, true), (4, true)])
        [dcAckExample, "anyOtherLine"]
        ⟨App.default_settings, []⟩).map App.DispatcherState.ran =
      some [0, 1, 0, 1, 2, 3, 4] := by
  have h := dispatcher_config_ack_short_circuits
    [⟨3, true, true, App.analyzer_step⟩, ⟨4, true, true, App.analyzer_step⟩]
    dcAckExample App.default_settings dcAckSettings [0]
    ⟨1, false, false, fun m stg => App.get_channels_from_msg stg m⟩
    rfl (by rfl)
  exact ⟨h.1, h.2.2.2⟩

/-- C6.  Once `FileConsumer.stop(run_id, analyzer_id)` has completed, a
`push` of any data type for that analyzer id performs no file write and
raises nothing: every typed handler returns silently because the
analyzer's `open_files` record was removed by the stop. -/
theorem file_push_after_stop_silent
    (fc fc' : FileConsumer) (aid : String)
    (h : fc.stop aid = some fc') :
    ∀ dt, fc'.push dt aid = [] := by
  intro dt
  have hfc' : fc' = { open_files := fc.open_files.filter (fun e => !(e.1 == aid)) } := by
    unfold FileConsumer.stop at h
    cases hl : fc.lookupFiles aid with
    | none => rw [hl] at h; simp at h
    | some dts => rw [hl] at h; simpa using h.symm
  have hlook : fc'.lookupFiles aid = none := by
    rw [hfc']
    unfold FileConsumer.lookupFiles
    rw [List.find?_eq_none.mpr]
    · rfl
    · intro x hx
      have := (List.mem_filter.mp hx).2
      simpa using this
  cases dt <;>
    simp [FileConsumer.push, FileConsumer.push_raw, FileConsumer.push_rate,
      FileConsumer.push_decay, FileConsumer.push_velocity, FileConsumer.push_pulse,
      FileConsumer.pushTyped, hlook]

/-- Witness for C6 at `fileExample`: stopping `"RateAnalyzer"` removes
its record, and a subsequent push of every data type for it is silently
absorbed (while the other analyzer's record survives). -/
theorem file_push_after_stop_silent_witness :
    fileExample.stop "RateAnalyzer" =
      some ⟨[("PulseAnalyzer", [DataTypes.PULSE])]⟩ ∧
    (⟨[("PulseAnalyzer", [DataTypes.PULSE])]⟩ : FileConsumer).push
      DataTypes.RATE "RateAnalyzer" = [] ∧
    (⟨[("PulseAnalyzer", [DataTypes.PULSE])]⟩ : FileConsumer).push
      DataTypes.RAW "RateAnalyzer" = [] ∧
    (⟨[("PulseAnalyzer", [DataTypes.PULSE])]⟩ : FileConsumer).push
      DataTypes.PULSE "RateAnalyzer" = [] ∧
    (⟨[("PulseAnalyzer", [DataTypes.PULSE])]⟩ : FileConsumer).push
      DataTypes.DECAY "RateAnalyzer" = [] ∧
    (⟨[("PulseAnalyzer", [DataTypes.PULSE])]⟩ : FileConsumer).push
      DataTypes.VELOCITY "RateAnalyzer" = [] := by
  have h := file_push_after_stop_silent fileExample
    ⟨[("PulseAnalyzer", [DataTypes.PULSE])]⟩ "RateAnalyzer" (by rfl)
  exact ⟨by rfl, h DataTypes.RATE, h DataTypes.RAW, h DataTypes.PULSE,
    h DataTypes.DECAY, h DataTypes.VELOCITY⟩

/-- C7.  With remembered coincidence registers `(t03, t02)` and a bound
transport, `DecayAnalyzer.start` issues exactly
`DC`, `CE`, `WC 03 04`, `WC 02 0A`, `WC 00 0F` (the wide-gate
reprogramming), and the following `stop` sends exactly
`WC 03 t03` and `WC 02 t02`, returning both registers to their pre-start
values; the remembered values themselves survive the round trip. -/
theorem decay_start_stop_restores_registers
    (d : DecayAnalyzer) (r tr : Nat) (t03 t02 : String)
    (h03 : d.previous_coinc_time_03 = t03)
    (h02 : d.previous_coinc_time_02 = t02)
    (hdis : d.base.disabled = false) :
    (d.start r (some tr)).2.2 = ["DC", "CE", "WC 03 04", "WC 02 0A", "WC 00 0F"] ∧
    ((d.start r (some tr)).1.stop).2.2 = ["WC 03 " ++ t03, "WC 02 " ++ t02] ∧
    ((d.start r (some tr)).1.stop).1.previous_coinc_time_03 = t03 ∧
    ((d.start r (some tr)).1.stop).1.previous_coinc_time_02 = t02 := by
  cases hact : d.base.active <;>
    simp_all [DecayAnalyzer.start, DecayAnalyzer.stop, BaseAnalyzer.start,
      BaseAnalyzer.stop, BaseAnalyzer.daq_put]

/-- Witness for C7 at `decayExample` (remembered registers
`("23", "0A")`, transport 4). -/
theorem decay_start_stop_restores_registers_witness :
    (decayExample.start 1 (some 4)).2.2 =
      ["DC", "CE", "WC 03 04", "WC 02 0A", "WC 00 0F"] ∧
    ((decayExample.start 1 (some 4)).1.stop).2.2 =
      ["WC 03 23", "WC 02 0A"] := by
  have h := decay_start_stop_restores_registers decayExample 1 4 "23" "0A"
    rfl rfl rfl
  exact ⟨h.1, by simpa using h.2.1⟩

/-- C8.  For a line carrying extracted pulses, the pulse-width analyzer
computes, for each of the four data channels (the trigger channel
`pulses[0]` excluded), the widths `falling - leading` in pulse order,
substituting `0` for a pulse without a falling edge, and publishes all
four lists with the one timestamp of the line; in particular the channel
pulses `[(100, 150), (200, None)]` yield widths `[50, 0]`. -/
theorem pulse_widths_per_channel
    (tch c0 c1 c2 c3 : List (ℚ × Option ℚ)) (ts : ℚ) :
    (PulseAnalyzer.calculate ts (some (some [tch, c0, c1, c2, c3])) =
      some (some ([c0.map PulseAnalyzer.pulseWidth, c1.map PulseAnalyzer.pulseWidth,
                   c2.map PulseAnalyzer.pulseWidth, c3.map PulseAnalyzer.pulseWidth],
                  ts), true)) ∧
    (PulseAnalyzer.calculate ts
        (some (some [tch, [(100, some 150), (200, none)], [], [], []])) =
      some (some ([[50, 0], [], [], []], ts), true)) := by
  constructor
  · simp [PulseAnalyzer.calculate, PulseAnalyzer.channelWidths, List.range_succ]
  · simp [PulseAnalyzer.calculate, PulseAnalyzer.channelWidths,
      PulseAnalyzer.pulseWidth, List.range_succ]
    norm_num

/-- C9, counterexample.  Two distinct analyzer instances constructed with
the default `consumers` argument alias the one list object Python created
when the `def` was evaluated: registering consumer 7 through the first
instance makes it appear in the second instance's collection, which the
claim says can never happen. -/
theorem default_consumers_shared_cex :
    (newAnalyzerDefault 1).oid ≠ (newAnalyzerDefault 2).oid ∧
    consumersOf (registerConsumer moduleHeap (newAnalyzerDefault 1) 7)
      (newAnalyzerDefault 2) = [7] ∧
    consumersOf moduleHeap (newAnalyzerDefault 2) = [] := by
  refine ⟨by decide, by rfl, by rfl⟩

/-- C9, amended.  `App` instances each own a freshly allocated analyzer
collection — two instances get distinct list objects, their initial
contents are the three pre-processing steps plus the passed analyzers,
and `add_analyzer` on one never changes the other.  Analyzer instances
constructed with the default `consumers` argument, however, all share the
single list allocated at class-definition time: registering a consumer
through any one of them is visible through every other. -/
theorem owned_collections_amended (h : PyHeap) (l1 l2 : List Nat) (x i j : Nat) :
    ((newApp h l1).2).analyzersRef ≠ ((newApp (newApp h l1).1 l2).2).analyzersRef ∧
    analyzersOf (newApp (newApp h l1).1 l2).1 (newApp h l1).2 = [0, 1, 2] ++ l1 ∧
    analyzersOf (newApp (newApp h l1).1 l2).1 (newApp (newApp h l1).1 l2).2 =
      [0, 1, 2] ++ l2 ∧
    analyzersOf
      (add_analyzer (newApp (newApp h l1).1 l2).1 (newApp h l1).2 x)
      (newApp (newApp h l1).1 l2).2 =
      analyzersOf (newApp (newApp h l1).1 l2).1 (newApp (newApp h l1).1 l2).2 ∧
    analyzersOf
      (add_analyzer (newApp (newApp h l1).1 l2).1 (newApp (newApp h l1).1 l2).2 x)
      (newApp h l1).2 =
      analyzersOf (newApp (newApp h l1).1 l2).1 (newApp h l1).2 ∧
    consumersOf (registerConsumer h (newAnalyzerDefault i) x) (newAnalyzerDefault j) =
      consumersOf h (newAnalyzerDefault j) ++ [x] := by
  simp [newApp, PyHeap.alloc, analyzersOf, add_analyzer, PyHeap.appendCell,
    PyHeap.readCell, consumersOf, registerConsumer, newAnalyzerDefault,
    defaultConsumersCell]

end Muonic
